import Mathlib

/-!
Verification development for the Viki media-resolution client
(yt_dlp/extractor/viki.py).  The Python source is shallowly embedded:
pure helpers become Lean functions, the network is an explicit oracle
(functions from request to parsed response), machine integers are `Nat`
with explicit `% 2 ^ 32` where overflow matters, and code paths that
raise become `Except`/`Option` results.
-/

namespace Viki

/-! ## Bytes, ASCII and hex helpers -/

/-- 2 ^ 32, the modulus for SHA-1 word arithmetic. -/
def pow32 : Nat := 4294967296

/-- `str.encode('ascii')`: a string's characters as byte values.
Faithful for ASCII-only strings, which is all the source ever signs. -/
def asciiEncode (s : String) : List Nat := s.data.map Char.toNat

/-- Lower-case hex digit for a value below 16. -/
def hexChar (n : Nat) : Char :=
  if n < 10 then Char.ofNat (48 + n) else Char.ofNat (87 + n)

/-- `bytes.hex()` / `hexdigest()`: lower-case hex of a byte list. -/
def hexdigest (bs : List Nat) : String :=
  String.mk (bs.flatMap (fun b => [hexChar (b / 16), hexChar (b % 16)]))

/-- Big-endian 4-byte encoding of a 32-bit word. -/
def bigEndian4 (n : Nat) : List Nat :=
  [(n >>> 24) % 256, (n >>> 16) % 256, (n >>> 8) % 256, n % 256]

/-- Big-endian 8-byte encoding of a 64-bit length. -/
def bigEndian8 (n : Nat) : List Nat :=
  (List.range 8).map (fun i => (n >>> ((7 - i) * 8)) % 256)

/-! ## SHA-1 (FIPS 180), over byte lists -/

/-- Rotate a 32-bit word left by `n` bits. -/
def rotl32 (n x : Nat) : Nat := ((x <<< n) ||| (x >>> (32 - n))) % pow32

/-- SHA-1 round function. -/
def sha1F (t b c d : Nat) : Nat :=
  if t < 20 then (b &&& c) ||| ((b ^^^ 4294967295) &&& d)
  else if t < 40 then b ^^^ c ^^^ d
  else if t < 60 then (b &&& c) ||| (b &&& d) ||| (c &&& d)
  else b ^^^ c ^^^ d

/-- SHA-1 round constants. -/
def sha1K (t : Nat) : Nat :=
  if t < 20 then 1518500249
  else if t < 40 then 1859775393
  else if t < 60 then 2400959708
  else 3395469782

/-- Big-endian 32-bit words from a byte list (groups of 4). -/
def bytesToWords : List Nat → List Nat
  | b1 :: b2 :: b3 :: b4 :: rest =>
      (b1 * 16777216 + b2 * 65536 + b3 * 256 + b4) :: bytesToWords rest
  | _ => []

/-- Extend the message schedule; `ws` is the reversed word list so far. -/
def sha1ExtendAux : Nat → List Nat → List Nat
  | 0, ws => ws
  | Nat.succ f, ws =>
      let w := rotl32 1 ((ws.getD 2 0) ^^^ (ws.getD 7 0) ^^^ (ws.getD 13 0) ^^^ (ws.getD 15 0))
      sha1ExtendAux f (w :: ws)

/-- The 80-word message schedule of one 64-byte block. -/
def sha1W (block : List Nat) : List Nat :=
  ((sha1ExtendAux 64 (bytesToWords block).reverse)).reverse

/-- One SHA-1 compression step. -/
def sha1Step (st : Nat × Nat × Nat × Nat × Nat) (p : Nat × Nat) :
    Nat × Nat × Nat × Nat × Nat :=
  let (a, b, c, d, e) := st
  let (t, wt) := p
  let tmp := (rotl32 5 a + sha1F t b c d + e + sha1K t + wt) % pow32
  (tmp, a, rotl32 30 b, c, d)

/-- Compress one 64-byte block into the running 5-word state. -/
def sha1Compress (h : List Nat) (block : List Nat) : List Nat :=
  let w := sha1W block
  let h0 := h.getD 0 0
  let h1 := h.getD 1 0
  let h2 := h.getD 2 0
  let h3 := h.getD 3 0
  let h4 := h.getD 4 0
  let r := ((List.range 80).zip w).foldl sha1Step (h0, h1, h2, h3, h4)
  [(h0 + r.1) % pow32, (h1 + r.2.1) % pow32, (h2 + r.2.2.1) % pow32,
   (h3 + r.2.2.2.1) % pow32, (h4 + r.2.2.2.2) % pow32]

/-- MD-strengthening padding: 0x80, zeros to 56 mod 64, 8-byte bit length. -/
def sha1Pad (msg : List Nat) : List Nat :=
  let len := msg.length
  let padZeros := (64 + 55 - (len % 64)) % 64
  msg ++ [128] ++ List.replicate padZeros 0 ++ bigEndian8 (len * 8)

/-- Split into 64-byte chunks; the fuel is an upper bound on the chunk count. -/
def chunk64 : Nat → List Nat → List (List Nat)
  | _, [] => []
  | 0, _ => []
  | Nat.succ f, l => l.take 64 :: chunk64 f (l.drop 64)

/-- SHA-1 digest (20 bytes) of a byte list. -/
def sha1 (msg : List Nat) : List Nat :=
  let padded := sha1Pad msg
  let hs := (chunk64 padded.length padded).foldl sha1Compress
    [1732584193, 4023233417, 2562383102, 271733878, 3285377520]
  hs.flatMap bigEndian4

/-! ## HMAC-SHA1 (RFC 2104) -/

/-- HMAC-SHA1 of `msg` keyed by `key`, both byte lists; 64-byte block size. -/
def hmacSha1 (key msg : List Nat) : List Nat :=
  let k1 := if key.length > 64 then sha1 key else key
  let k2 := k1 ++ List.replicate (64 - k1.length) 0
  let ipad := k2.map (· ^^^ 54)
  let opad := k2.map (· ^^^ 92)
  sha1 (opad ++ sha1 (ipad ++ msg))

/-- `hmac.new(key.encode('ascii'), msg.encode('ascii'), hashlib.sha1).hexdigest()`. -/
def hmacSha1Hex (key msg : String) : String := hexdigest (hmacSha1 (asciiEncode key) (asciiEncode msg))

/-! ## Signer (`VikiBaseIE._prepare_call`) -/

/-- `VikiBaseIE._APP`. -/
def APP : String := "100005a"

/-- `VikiBaseIE._APP_VERSION` (sent in request headers). -/
def APP_VERSION : String := "6.0.0"

/-- `VikiBaseIE._APP_SECRET` (the literal shared secret from the source;
the single right-brace character is written as the escape `\x7d`). -/
def APP_SECRET : String := "MM_d*yP@`&1@]@!AVrXf_o-HVEnoTnm$O-ti4[G~$JDI/Dc-&piU&z&5.;:\x7d95=Iad"

/-- Python truthiness of an optional string (`None` and `''` are falsy). -/
def truthyStr : Option String → Bool
  | none => false
  | some s => !(s == "")

/-- Lines 51-52 of `_prepare_call`: `if not timestamp: timestamp = int(time.time())`.
An absent or zero (falsy) timestamp argument is replaced by the clock value `now`. -/
def effective_timestamp (timestamp : Option Int) (now : Int) : Int :=
  match timestamp with
  | some t => if t = 0 then now else t
  | none => now

/-- The canonical query of `_prepare_call` (lines 50, 53-55): `'?'` is appended
to the path when it has no `'?'` yet, else `'&'`; then the template
`'/v4/%sapp=%s&t=%s&site=www.viki.com'` is filled in; a truthy session token
appends `'&token=%s'` before the signature is taken. -/
def prepare_call_query (path : String) (timestamp : Int) (token : Option String) : String :=
  let path2 := path ++ (if path.data.contains '?' then "&" else "?")
  let query := "/v4/" ++ path2 ++ "app=" ++ APP ++ "&t=" ++ toString timestamp ++ "&site=www.viki.com"
  if truthyStr token then query ++ "&token=" ++ (token.getD "") else query

/-- The signed URL of `_prepare_call` (lines 56-61): the template
`'https://api.viki.io%s&sig=%s'` filled with the canonical query and the
hex HMAC-SHA1 of the query keyed by the app secret. -/
def prepare_call_url (path : String) (timestamp : Int) (token : Option String) : String :=
  let query := prepare_call_query path timestamp token
  let sig := hmacSha1Hex APP_SECRET query
  "https://api.viki.io" ++ query ++ "&sig=" ++ sig

/-- A built request: `sanitized_Request(url, body)` for POST, a bare URL for GET. -/
inductive PreparedRequest
  | get (url : String)
  | post (url : String) (body : String)
deriving DecidableEq, Repr

/-- The URL of a prepared request. -/
def requestUrl : PreparedRequest → String
  | .get u => u
  | .post u _ => u

/-- `_prepare_call` in full (lines 49-63).  `post_data` stands for the
JSON-serialized payload (`json.dumps(post_data)`); when present a POST request
carrying it is returned, else the bare signed URL (a GET). -/
def prepare_call (path : String) (timestamp : Option Int) (now : Int)
    (token : Option String) (post_data : Option String) : PreparedRequest :=
  let url := prepare_call_url path (effective_timestamp timestamp now) token
  match post_data with
  | some body => .post url body
  | none => .get url

/-! ## Session (`VikiBaseIE._call_api`) -/

/-- A parsed JSON API response: the `error` field, the `current_timestamp`
field, and `payload` standing for all remaining content. -/
structure ApiResp where
  error : Option String
  current_timestamp : Option Int
  payload : String
deriving DecidableEq, Repr

/-- `error = resp.get('error'); if error:` — the truthy error of a response
(`None` when the field is absent or the empty string). -/
def truthyError (r : ApiResp) : Option String :=
  match r.error with
  | none => none
  | some s => if s = "" then none else some s

/-- Outcome of `_call_api`: a returned response, a raised
`ExtractorError('%s returned error: %s' % (IE_NAME, error), expected=True)`,
or an unhandled exception (missing `current_timestamp` on retry). -/
inductive CallResult
  | ok (resp : ApiResp)
  | apiError (msg : String) (expected : Bool)
  | crash
deriving DecidableEq, Repr

/-- Whether a call outcome is a raised API error. -/
def isApiError : CallResult → Bool
  | .apiError _ _ => true
  | _ => false

/-- `_call_api` (lines 65-90).  `server n` is the parsed JSON answer to the
`n`-th network call of this invocation; the second component of the result is
the list of requests actually issued, in order (its length is the number of
network calls).  A truthy `error` equal to `'invalid timestamp'` triggers
exactly one retry built from the response's `current_timestamp`; any other
truthy error, before or after the retry, raises via `_raise_error` (line 92-95). -/
def call_api (ieName : String) (token : Option String) (path : String)
    (timestamp : Option Int) (now : Int) (post_data : Option String)
    (server : Nat → ApiResp) : CallResult × List PreparedRequest :=
  let req1 := prepare_call path timestamp now token post_data
  let resp := server 0
  match truthyError resp with
  | none => (.ok resp, [req1])
  | some e =>
    if e = "invalid timestamp" then
      match resp.current_timestamp with
      | none => (.crash, [req1])
      | some t =>
        let req2 := prepare_call path (some t) now token post_data
        let resp2 := server 1
        match truthyError resp2 with
        | none => (.ok resp2, [req1, req2])
        | some e2 => (.apiError (ieName ++ " returned error: " ++ e2) true, [req1, req2])
    else (.apiError (ieName ++ " returned error: " ++ e) true, [req1])

/-! ## Spec-side signer, for the refinement claim about `_prepare_call` -/

/-- Spec-side `buildSignedURL`, written from the specification's words: the
canonical query is `'/v4/' + path + ('&' if path already contains '?' else '?')
+ 'app=APP&t=TIMESTAMP&site=www.viki.com'`, with `'&token=TOKEN'` appended when
the session token is set, before the signature is computed; the signature is
the hex HMAC-SHA1 of the canonical query's ASCII bytes keyed by the secret's
ASCII bytes; the final URL is the API base host plus the canonical query plus
`'&sig=SIGNATURE'`. -/
def buildSignedURL (path : String) (timestamp : Int) (token : Option String) : String :=
  let canonicalQuery := "/v4/" ++ path ++ (if path.data.contains '?' then "&" else "?") ++
    ("app=" ++ APP ++ "&t=" ++ toString timestamp ++ "&site=www.viki.com")
  let signedQuery :=
    if truthyStr token then canonicalQuery ++ ("&token=" ++ token.getD "") else canonicalQuery
  let signature := hexdigest (hmacSha1 (asciiEncode APP_SECRET) (asciiEncode signedQuery))
  "https://api.viki.io" ++ signedQuery ++ ("&sig=" ++ signature)

/-! ## Concrete servers used by the session theorems -/

/-- A response whose `error` field is present but the empty string. -/
def c1Resp : ApiResp := ⟨some "", none, "body"⟩

/-- A server that always answers with `c1Resp`. -/
def c1Server : Nat → ApiResp := fun _ => c1Resp

/-- First answer of the clock-skew scenario: `invalid timestamp` with a
corrected timestamp. -/
def c1RespInvalidTs : ApiResp := ⟨some "invalid timestamp", some 42, "first"⟩

/-- Second answer of the clock-skew scenario: an error-free response. -/
def c1RespOk2 : ApiResp := ⟨none, none, "second"⟩

/-- Server answering `invalid timestamp` first and success on the retry. -/
def c1RetryServer : Nat → ApiResp := fun n => if n = 0 then c1RespInvalidTs else c1RespOk2

/-! ## UTF-8 encoding and decoding -/

/-- UTF-8 bytes of one character. -/
def charUtf8 (c : Char) : List Nat :=
  let n := c.toNat
  if n < 128 then [n]
  else if n < 2048 then [192 + n / 64, 128 + n % 64]
  else if n < 65536 then [224 + n / 4096, 128 + (n / 64) % 64, 128 + n % 64]
  else [240 + n / 262144, 128 + (n / 4096) % 64, 128 + (n / 64) % 64, 128 + n % 64]

/-- `str.encode('utf-8')`. -/
def utf8Encode (s : String) : List Nat := s.data.flatMap charUtf8

/-- Whether a byte is a UTF-8 continuation byte (`10xxxxxx`). -/
def isCont (b : Nat) : Bool := b / 64 == 2

/-- Strict UTF-8 decoding (as `bytes.decode()`): `none` on any invalid,
overlong or surrogate sequence. -/
def utf8DecodeStrictAux : List Nat → Option (List Char)
  | [] => some []
  | b :: rest =>
    if b < 128 then (utf8DecodeStrictAux rest).map (fun cs => Char.ofNat b :: cs)
    else if b < 194 then none
    else if b < 224 then
      match rest with
      | b2 :: r =>
        if isCont b2 then
          (utf8DecodeStrictAux r).map (fun cs => Char.ofNat ((b - 192) * 64 + (b2 - 128)) :: cs)
        else none
      | [] => none
    else if b < 240 then
      match rest with
      | b2 :: b3 :: r =>
        if isCont b2 = true ∧ isCont b3 = true ∧ (b = 224 → 160 ≤ b2) ∧ (b = 237 → b2 < 160) then
          (utf8DecodeStrictAux r).map
            (fun cs => Char.ofNat ((b - 224) * 4096 + (b2 - 128) * 64 + (b3 - 128)) :: cs)
        else none
      | _ => none
    else if b < 245 then
      match rest with
      | b2 :: b3 :: b4 :: r =>
        if isCont b2 = true ∧ isCont b3 = true ∧ isCont b4 = true
            ∧ (b = 240 → 144 ≤ b2) ∧ (b = 244 → b2 < 144) then
          (utf8DecodeStrictAux r).map
            (fun cs =>
              Char.ofNat ((b - 240) * 262144 + (b2 - 128) * 4096 + (b3 - 128) * 64 + (b4 - 128)) :: cs)
        else none
      | _ => none
    else none

/-- `bytes.decode()` with default strict error handling. -/
def utf8DecodeStrict (bs : List Nat) : Option String := (utf8DecodeStrictAux bs).map String.mk

/-- U+FFFD. -/
def replacementChar : Char := Char.ofNat 65533

/-- UTF-8 decoding with `errors='replace'`, fuelled for structural recursion
(the fuel bounds the number of bytes consumed): an invalid lead byte (or an
incomplete/invalid sequence) yields U+FFFD and decoding resumes after the
offending lead byte. -/
def utf8DecodeReplaceF : Nat → List Nat → List Char
  | 0, _ => []
  | _, [] => []
  | Nat.succ f, b :: rest =>
    if b < 128 then Char.ofNat b :: utf8DecodeReplaceF f rest
    else if 194 ≤ b ∧ b < 224 then
      match rest with
      | b2 :: r =>
        if isCont b2 then Char.ofNat ((b - 192) * 64 + (b2 - 128)) :: utf8DecodeReplaceF f r
        else replacementChar :: utf8DecodeReplaceF f (b2 :: r)
      | [] => [replacementChar]
    else if 224 ≤ b ∧ b < 240 then
      match rest with
      | b2 :: b3 :: r =>
        if isCont b2 = true ∧ isCont b3 = true ∧ (b = 224 → 160 ≤ b2) ∧ (b = 237 → b2 < 160) then
          Char.ofNat ((b - 224) * 4096 + (b2 - 128) * 64 + (b3 - 128)) :: utf8DecodeReplaceF f r
        else replacementChar :: utf8DecodeReplaceF f (b2 :: b3 :: r)
      | [b2] => replacementChar :: utf8DecodeReplaceF f [b2]
      | [] => [replacementChar]
    else if 240 ≤ b ∧ b < 245 then
      match rest with
      | b2 :: b3 :: b4 :: r =>
        if isCont b2 = true ∧ isCont b3 = true ∧ isCont b4 = true
            ∧ (b = 240 → 144 ≤ b2) ∧ (b = 244 → b2 < 144) then
          Char.ofNat ((b - 240) * 262144 + (b2 - 128) * 4096 + (b3 - 128) * 64 + (b4 - 128))
            :: utf8DecodeReplaceF f r
        else replacementChar :: utf8DecodeReplaceF f (b2 :: b3 :: b4 :: r)
      | [b2, b3] => replacementChar :: utf8DecodeReplaceF f [b2, b3]
      | [b2] => replacementChar :: utf8DecodeReplaceF f [b2]
      | [] => [replacementChar]
    else replacementChar :: utf8DecodeReplaceF f rest

/-- UTF-8 decoding with replacement of a whole byte list. -/
def utf8DecodeReplaceAux (bs : List Nat) : List Char := utf8DecodeReplaceF bs.length bs

/-- UTF-8 decoding with replacement, producing a string. -/
def utf8DecodeReplace (bs : List Nat) : String := String.mk (utf8DecodeReplaceAux bs)

/-! ## Percent decoding and query-string parsing (`urllib.parse`) -/

/-- Value of a hex digit character, if it is one. -/
def hexVal (c : Char) : Option Nat :=
  let n := c.toNat
  if 48 ≤ n ∧ n ≤ 57 then some (n - 48)
  else if 97 ≤ n ∧ n ≤ 102 then some (n - 87)
  else if 65 ≤ n ∧ n ≤ 70 then some (n - 55)
  else none

/-- Percent-decode a character stream into bytes: `%XY` hex pairs become one
byte, every other character contributes its UTF-8 bytes (a `%` not followed by
two hex digits is literal); fuelled for structural recursion, the fuel bounding
the number of characters consumed.  Decoding everything to one byte stream and
UTF-8-decoding once is how `urllib.parse.unquote`'s per-run decoding behaves
on its inputs here. -/
def percentToBytesF : Nat → List Char → List Nat
  | 0, _ => []
  | _, [] => []
  | Nat.succ f, '%' :: tail =>
    (match tail with
     | a :: b :: rest =>
       match hexVal a, hexVal b with
       | some x, some y => (x * 16 + y) :: percentToBytesF f rest
       | _, _ => charUtf8 '%' ++ percentToBytesF f (a :: b :: rest)
     | [a] => charUtf8 '%' ++ percentToBytesF f [a]
     | [] => charUtf8 '%')
  | Nat.succ f, c :: tail => charUtf8 c ++ percentToBytesF f tail

/-- Percent decoding of a whole character list. -/
def percentToBytes (cs : List Char) : List Nat := percentToBytesF cs.length cs

/-- `urllib.parse.unquote_plus`: `+` becomes a space, `%XY` escapes are
percent-decoded, and the byte stream is read back as UTF-8 with replacement. -/
def unquote_plus (s : String) : String :=
  utf8DecodeReplace (percentToBytes (s.data.map (fun c => if c = '+' then ' ' else c)))

/-- Split a character list on every occurrence of a separator character. -/
def splitOnChar (sep : Char) : List Char → List (List Char)
  | [] => [[]]
  | c :: rest =>
    let r := splitOnChar sep rest
    if c = sep then [] :: r
    else
      match r with
      | [] => [[c]]
      | g :: gs => (c :: g) :: gs

/-- Split a character list at the first occurrence of a character: the part
before it and the part after it, or `none` when it does not occur. -/
def splitAtFirstChar (sep : Char) : List Char → Option (List Char × List Char)
  | [] => none
  | c :: rest =>
    if c = sep then some ([], rest)
    else (splitAtFirstChar sep rest).map (fun p => (c :: p.1, p.2))

/-- `urllib.parse.parse_qsl` with default arguments (`keep_blank_values=False`):
split on `&`, drop empty fields, drop fields with no `=` and fields whose raw
value is empty, split each field at its first `=`, and unquote names and
values. -/
def parse_qsl (qs : String) : List (String × String) :=
  (splitOnChar '&' qs.data).flatMap (fun nv =>
    if nv = [] then []
    else
      match splitAtFirstChar '=' nv with
      | none => []
      | some (name, value) =>
        if value = [] then []
        else [(unquote_plus (String.mk name), unquote_plus (String.mk value))])

/-- Append one parsed pair to a grouped query dict, preserving first-seen key
order and per-key value order. -/
def addQsPair (acc : List (String × List String)) (k : String) (v : String) :
    List (String × List String) :=
  match acc with
  | [] => [(k, [v])]
  | (k0, vs) :: rest =>
    if k0 = k then (k0, vs ++ [v]) :: rest else (k0, vs) :: addQsPair rest k v

/-- `compat_parse_qs` = `urllib.parse.parse_qs`: the parsed pairs grouped into
an ordered multi-dict. -/
def parse_qs (qs : String) : List (String × List String) :=
  (parse_qsl qs).foldl (fun acc p => addQsPair acc p.1 p.2) []

/-- The `query` component of `urllib.parse.urlparse`: the fragment starts at
the first `#`; within what precedes it, the query is everything after the
first `?` (empty when there is none). -/
def urlparseQuery (url : String) : String :=
  let beforeFrag :=
    match splitAtFirstChar '#' url.data with
    | some p => p.1
    | none => url.data
  match splitAtFirstChar '?' beforeFrag with
  | some p => String.mk p.2
  | none => ""

/-! ## Base64 (`base64.b64decode` with `validate=False`) -/

/-- Index of a standard-alphabet base64 character. -/
def b64Index (c : Char) : Option Nat :=
  let n := c.toNat
  if 65 ≤ n ∧ n ≤ 90 then some (n - 65)
  else if 97 ≤ n ∧ n ≤ 122 then some (n - 71)
  else if 48 ≤ n ∧ n ≤ 57 then some (n + 4)
  else if n = 43 then some 62
  else if n = 47 then some 63
  else none

/-- Base64 decoding loop; `group` holds the 6-bit values of the pending data
characters (at most three).  Non-alphabet characters are discarded
(`validate=False`); a `=` completing a group of two (only when immediately
followed by another `=`) or three ends decoding, discarding the rest; a
leftover group at end of input is a padding error (`none`), matching
`binascii.a2b_base64`. -/
def b64Aux : List Char → List Nat → Option (List Nat)
  | [], group =>
    match group with
    | [] => some []
    | _ => none
  | c :: rest, group =>
    if c = '=' then
      match group with
      | [a, b] =>
        match rest with
        | '=' :: _ => some [a * 4 + b / 16]
        | _ => none
      | [a, b, c2] => some [a * 4 + b / 16, (b % 16) * 16 + c2 / 4]
      | _ => b64Aux rest group
    else
      match b64Index c with
      | none => b64Aux rest group
      | some v =>
        match group with
        | [a, b, c2] =>
          (b64Aux rest []).map
            (fun tl => (a * 4 + b / 16) :: ((b % 16) * 16 + c2 / 4) :: ((c2 % 4) * 64 + v) :: tl)
        | g => b64Aux rest (g ++ [v])

/-- `base64.b64decode(s)` as bytes, `none` on a padding error. -/
def b64decode (s : String) : Option (List Nat) := b64Aux s.data []

/-- `base64.b64decode(stream).decode()`: base64 to bytes, then strict UTF-8. -/
def b64decodeToUtf8 (s : String) : Option String := (b64decode s).bind utf8DecodeStrict

/-! ## Format resolver (`VikiIE._real_extract` / `add_format`) -/

/-- A raw per-format entry: `format_dict`, of which only `url` is read. -/
structure FormatEntry where
  url : Option String
deriving DecidableEq, Repr

/-- A produced format descriptor.  One record covers the three descriptor
shapes the source builds (progressive, RTMP, collaborator output); fields a
shape does not set are `none`. -/
structure FormatDescriptor where
  format_id : Option String
  url : String
  ext : Option String
  play_path : Option String
  app : Option String
  page_url : Option String
  height : Option Int
  filesize : Option Int
  acodec : Option String
  vcodec : Option String
deriving DecidableEq, Repr

/-- External collaborators of the resolver: the HLS and DASH manifest
extractors (url and manifest id determine their output; `video_id` is only
used for logging and is omitted), the `Content-Length` header answered by the
HEAD probe, and the `allow_unplayable_formats` parameter. -/
structure Env where
  m3u8 : String → String → List FormatDescriptor
  mpd : String → String → List FormatDescriptor
  headContentLength : String → Option String
  allowUnplayable : Bool

/-- `qs.get('stream', [None])[0]`: the first `stream` value of the URL's
parsed query, when the key is present. -/
def streamParam (format_url : String) : Option String :=
  ((parse_qs (urlparseQuery format_url)).lookup "stream").bind List.head?

/-- Lines 334-337 of `add_format`: a truthy `stream` query parameter replaces
the format URL by its base64 decoding; a decoding failure is a raised
exception. -/
def effectiveUrl (format_url : String) : Except String String :=
  match streamParam format_url with
  | none => .ok format_url
  | some s =>
    if s = "" then .ok format_url
    else
      match b64decodeToUtf8 s with
      | some u => .ok u
      | none => .error "stream parameter is not valid base64/UTF-8"

/-- `str.startswith(prefix)`, via character lists. -/
def strStartsWith (s pre : String) : Bool := pre.data.isPrefixOf s.data

/-- Sliding substring test on character lists. -/
def containsSub (pat : List Char) : List Char → Bool
  | [] => pat.isPrefixOf []
  | c :: rest => pat.isPrefixOf (c :: rest) || containsSub pat rest

/-- `'_drm/index_' in f['url']`. -/
def containsDrm (u : String) : Bool := containsSub "_drm/index_".data u.data

/-- Lines 348-349: a descriptor reporting `acodec == 'none'` with a video
codec other than `'none'` has its audio codec reset to the unknown value. -/
def normAudio (f : FormatDescriptor) : FormatDescriptor :=
  if f.acodec = some "none" ∧ f.vcodec ≠ some "none" then { f with acodec := none } else f

/-- Lines 345-350: post-processing of the HLS collaborator's descriptors —
DRM-marked URLs are dropped unless unplayable formats are allowed, and
video-only codec metadata is normalized. -/
def processM3U8 (allowUnplayable : Bool) : List FormatDescriptor → List FormatDescriptor
  | [] => []
  | f :: rest =>
    if !allowUnplayable && containsDrm f.url then processM3U8 allowUnplayable rest
    else normAudio f :: processM3U8 allowUnplayable rest

/-- Decimal value of an all-digit character list. -/
def digitsToNat (cs : List Char) : Nat := cs.foldl (fun acc c => acc * 10 + (c.toNat - 48)) 0

/-- `self._search_regex(r'^(\d+)[pP]$', format_id, 'height', default=None)`
composed with `int_or_none`. -/
def parseHeight (format_id : String) : Option Int :=
  let cs := format_id.data
  match cs.getLast? with
  | none => none
  | some c =>
    if (c = 'p' ∨ c = 'P') ∧ cs.dropLast ≠ [] ∧ cs.dropLast.all Char.isDigit then
      some (Int.ofNat (digitsToNat cs.dropLast))
    else none

/-- ASCII whitespace stripped by Python `int(str)`. -/
def isPySpace (c : Char) : Bool :=
  c = ' ' || c = '\t' || c = '\n' || c = '\r' || c.toNat = 11 || c.toNat = 12

/-- Python `int(str)`: optional surrounding whitespace, optional sign,
non-empty digits; anything else is a conversion failure. -/
def pyInt (s : String) : Option Int :=
  let t := ((s.data.dropWhile isPySpace).reverse.dropWhile isPySpace).reverse
  let p : Int × List Char :=
    match t with
    | '-' :: rest => (-1, rest)
    | '+' :: rest => (1, rest)
    | l => (1, l)
  if p.2 ≠ [] ∧ p.2.all Char.isDigit then
    some (p.1 * Int.ofNat (digitsToNat p.2))
  else none

/-- `int_or_none` from `yt_dlp.utils`: `int()` with failures mapped to `None`. -/
def int_or_none (v : Option String) : Option Int := v.bind pyInt

/-- No newline among the characters (`.` does not match a newline). -/
def noNewline (cs : List Char) : Bool := cs.all (fun c => !(c == '\n'))

/-- Backtracking split for `(?P<app>.+?)/(?P<playpath>mp4:.+)$`: the lazily
shortest non-empty `app` (newline-free) followed by `/` and a newline-free
playpath of the shape `mp4:` plus at least one character, reaching the end. -/
def rtmpFindSplit (pre : List Char) : List Char → Option (List Char × List Char)
  | [] => none
  | '/' :: tail =>
    if pre ≠ [] ∧ noNewline pre = true ∧ tail.take 4 = "mp4:".data
        ∧ 4 < tail.length ∧ noNewline tail = true then
      some (pre, tail)
    else rtmpFindSplit (pre ++ ['/']) tail
  | c :: tail => rtmpFindSplit (pre ++ [c]) tail

/-- `re.search(r'^(?P<url>rtmp://[^/]+/(?P<app>.+?))/(?P<playpath>mp4:.+)$', u)`:
on a match, the `url`, `app` and `playpath` groups.  A single trailing newline
is tolerated by the final `$`. -/
def rtmpMatch (s : String) : Option (String × String × String) :=
  let cs := s.data
  let core := if cs.getLast? = some '\n' then cs.dropLast else cs
  if core.take 7 = "rtmp://".data then
    match splitAtFirstChar '/' (core.drop 7) with
    | none => none
    | some (host, r) =>
      if host = [] then none
      else
        match rtmpFindSplit [] r with
        | none => none
        | some (app2, playpath) =>
          some ("rtmp://" ++ String.mk host ++ "/" ++ String.mk app2,
                String.mk app2, String.mk playpath)
  else none

/-- Lines 338-377 of `add_format`: classification of the (already
deobfuscated) format URL by format id — HLS and DASH delegate to the manifest
collaborators (HLS output post-processed by `processM3U8`), an `rtmp…` URL is
parsed by the RTMP pattern (no match: no descriptor), and anything else is a
progressive file probed for its size. -/
def classifyFormat (env : Env) (pageUrl : String) (format_id protocol : String)
    (format_url : String) : List FormatDescriptor :=
  if format_id = "m3u8" ∨ format_id = "hls" then
    processM3U8 env.allowUnplayable (env.m3u8 format_url ("m3u8-" ++ protocol))
  else if format_id = "mpd" ∨ format_id = "dash" then
    env.mpd format_url ("mpd-" ++ protocol)
  else if strStartsWith format_url "rtmp" then
    match rtmpMatch format_url with
    | none => []
    | some (u, app2, pp) =>
      [{ format_id := some ("rtmp-" ++ format_id), url := u, ext := some "flv",
         play_path := some pp, app := some app2, page_url := some pageUrl,
         height := none, filesize := none, acodec := none, vcodec := none }]
  else
    [{ format_id := some (format_id ++ "-" ++ protocol), url := format_url, ext := none,
       play_path := none, app := none, page_url := none,
       height := parseHeight format_id,
       filesize := int_or_none (env.headContentLength format_url),
       acodec := none, vcodec := none }]

/-- `add_format(format_id, format_dict, protocol)` (lines 327-377): `rtmps`
entries and entries without a (truthy) URL produce nothing; otherwise the URL
is deobfuscated and classified.  The descriptors appended to `formats` are
returned; a raised exception is an `Except.error`. -/
def add_format (env : Env) (pageUrl : String) (format_id : String)
    (format_dict : FormatEntry) (protocol : String) : Except String (List FormatDescriptor) :=
  if protocol = "rtmps" then .ok []
  else
    match format_dict.url with
    | none => .ok []
    | some u =>
      if u = "" then .ok []
      else
        match effectiveUrl u with
        | .error e => .error e
        | .ok u2 => .ok (classifyFormat env pageUrl format_id protocol u2)

/-- Accumulation of `add_format` over a sequence of (format id, protocol,
entry) triples, in order, short-circuiting on a raised exception. -/
def collectFormats (env : Env) (pageUrl : String) :
    List (String × String × FormatEntry) → Except String (List FormatDescriptor)
  | [] => .ok []
  | (fid, proto, fd) :: rest =>
    match add_format env pageUrl fid fd proto with
    | .error e => .error e
    | .ok fs =>
      match collectFormats env pageUrl rest with
      | .error e => .error e
      | .ok more => .ok (fs ++ more)

/-- The dedicated streams-endpoint response: an `external` URL when the
response contains the `external` key, else the two-layer
format-id → protocol → entry map. -/
structure StreamsResp where
  external : Option String
  streams : List (String × List (String × FormatEntry))

/-- Outcome of the stream-resolution part of `_real_extract`. -/
inductive ExtractOutcome
  | urlTransparent (url : String)
  | formats (fs : List FormatDescriptor)
  | failed (e : String)
deriving DecidableEq, Repr

/-- The two-layer map flattened to (format id, protocol, entry) triples in
iteration order. -/
def flattenStreams (streams : List (String × List (String × FormatEntry))) :
    List (String × String × FormatEntry) :=
  streams.flatMap (fun p => p.2.map (fun q => (p.1, q.1, q.2)))

/-- Lines 379-399 of `_real_extract`: the embedded streams map is resolved
first with implicit protocol `http`; only when that produced no formats is the
dedicated endpoint consulted (second component: whether it was); an `external`
key there short-circuits into a `url_transparent` delegation, otherwise its
two-layer map is resolved. -/
def resolveStreams (env : Env) (pageUrl : String)
    (embedded : List (String × FormatEntry)) (endpoint : StreamsResp) :
    ExtractOutcome × Bool :=
  match collectFormats env pageUrl (embedded.map (fun p => (p.1, "http", p.2))) with
  | .error e => (.failed e, false)
  | .ok fs =>
    if fs.isEmpty then
      match endpoint.external with
      | some u => (.urlTransparent u, true)
      | none =>
        match collectFormats env pageUrl (flattenStreams endpoint.streams) with
        | .error e => (.failed e, true)
        | .ok fs2 => (.formats fs2, true)
    else (.formats fs, false)

/-! ## Restriction classifier (`VikiBaseIE._check_errors`) -/

/-- `VikiBaseIE._ERRORS`, in source order. -/
def ERRORS : List (String × String) :=
  [("geo", "Sorry, this content is not available in your region."),
   ("upcoming", "Sorry, this content is not yet available."),
   ("paywall", "Sorry, this content is only available to Viki Pass Plus subscribers")]

/-- The typed failures of `_check_errors`: `raise_geo_restricted(msg=…)`,
`raise_login_required(…)`, or a plain expected `ExtractorError`. -/
inductive RestrictionError
  | geoRestricted (msg : String)
  | loginRequired (msg : String)
  | extractorError (msg : String)
deriving DecidableEq, Repr

/-- `_check_errors` (lines 97-106), over the `blocking` flag entries in their
stored order: the first recognized reason with a truthy status raises; `none`
means the check returns normally. -/
def check_errors (ieName : String) : List (String × Bool) → Option RestrictionError
  | [] => none
  | (reason, status) :: rest =>
    if status ∧ (ERRORS.lookup reason).isSome then
      let message := (ERRORS.lookup reason).getD ""
      if reason = "geo" then some (.geoRestricted message)
      else if reason = "paywall" then some (.loginRequired message)
      else some (.extractorError (ieName ++ " said: " ++ message))
    else check_errors ieName rest

/-- Spec-side: a flag entry is a recognized reason code with a truthy value. -/
def recognizedTruthy (p : String × Bool) : Bool := p.2 && (ERRORS.lookup p.1).isSome

/-- Spec-side: the typed error raised for a recognized reason, with its fixed
message — geo-restricted for `geo`, login-required for `paywall`, a generic
expected restriction error for `upcoming`. -/
def restrictionFor (ieName reason : String) : RestrictionError :=
  if reason = "geo" then .geoRestricted "Sorry, this content is not available in your region."
  else if reason = "paywall" then
    .loginRequired "Sorry, this content is only available to Viki Pass Plus subscribers"
  else .extractorError (ieName ++ " said: " ++ "Sorry, this content is not yet available.")

/-! ## Locale text selector (`VikiBaseIE.dict_selection`) -/

/-- `dict_selection(dict_obj, preferred_key, allow_fallback)` (lines 129-138).
A dict of locale → text is an association list (values may be JSON null =
`none`); membership of the preferred key returns its value unconditionally;
otherwise, with fallback allowed, the first truthy value in stored order. -/
def dict_selection (dict_obj : List (String × Option String)) (preferred_key : String)
    (allow_fallback : Bool) : Option String :=
  match dict_obj.lookup preferred_key with
  | some v => v
  | none =>
    if allow_fallback then
      ((dict_obj.map Prod.snd).filterMap
        (fun v => v.bind (fun s => if s = "" then none else some s))).head?
    else none

/-- Spec-side selector, from the claim's words: the preferred key's value
whenever the key is present (even empty, even without fallback); else, with
fallback, the first non-empty/non-null value in stored key order (`none` when
the mapping is empty or all values are empty); else `none`. -/
def select_spec (d : List (String × Option String)) (k : String) (allow : Bool) : Option String :=
  if (d.lookup k).isSome then (d.lookup k).join
  else if allow then (d.find? (fun p => truthyStr p.2)).bind Prod.snd
  else none

/-! ## Channel paginator (`VikiChannelIE._real_extract`) -/

/-- `VikiChannelIE._PER_PAGE`. -/
def PER_PAGE : Nat := 25

/-- The listing path
`'containers/%s/%s.json?per_page=%d&sort=number&direction=asc&with_paging=true&page=%d'`. -/
def channelPagePath (channel_id video_type : String) (page_num : Nat) : String :=
  "containers/" ++ channel_id ++ "/" ++ video_type ++ ".json?per_page=" ++ toString PER_PAGE ++
    "&sort=number&direction=asc&with_paging=true&page=" ++ toString page_num

/-- One listing page: the ids of `page['response']` and the truthiness of
`page['pagination']['next']`. -/
structure ChannelPage where
  response : List String
  hasNext : Bool
deriving DecidableEq, Repr

/-- `self.url_result('https://www.viki.com/videos/%s' % video_id, 'Viki')`,
identified by its URL. -/
def videoUrlResult (video_id : String) : String := "https://www.viki.com/videos/" ++ video_id

/-- The inner paging loop of `VikiChannelIE._real_extract` for one category
(lines 450-460): append every page's items, then stop when the pagination
block reports no next page.  `server` abstracts the (signed) listing call by
path; `fuel` bounds the unbounded `itertools.count` loop. -/
def crawlCategory (server : String → ChannelPage) (channel_id video_type : String) :
    Nat → Nat → List String
  | _, 0 => []
  | page_num, Nat.succ fuel =>
    let page := server (channelPagePath channel_id video_type page_num)
    page.response.map videoUrlResult ++
      (if page.hasNext then crawlCategory server channel_id video_type (page_num + 1) fuel else [])

/-- The accumulated channel entries (lines 448-460): the three fixed
categories in order, each paged from page 1. -/
def channel_entries (server : String → ChannelPage) (channel_id : String)
    (fuel : Nat) : List String :=
  ["episodes", "clips", "movies"].flatMap
    (fun video_type => crawlCategory server channel_id video_type 1 fuel)

/-- The paging of one category terminates at page `n`: pages 1 to `n - 1`
report a next page and page `n` does not. -/
def stopsAt (server : String → ChannelPage) (channel_id video_type : String) (n : Nat) : Prop :=
  1 ≤ n
  ∧ (∀ k, 1 ≤ k → k < n → (server (channelPagePath channel_id video_type k)).hasNext = true)
  ∧ (server (channelPagePath channel_id video_type n)).hasNext = false

/-- The items of one category's pages 1 to `n`, in page order. -/
def categoryItems (server : String → ChannelPage) (channel_id video_type : String)
    (n : Nat) : List String :=
  (List.range' 1 n).flatMap
    (fun k => (server (channelPagePath channel_id video_type k)).response.map videoUrlResult)

/-! ## Concrete collaborators and inputs used by the resolver theorems -/

/-- An environment whose collaborators produce nothing. -/
def envNoop : Env :=
  { m3u8 := fun _ _ => [], mpd := fun _ _ => [],
    headContentLength := fun _ => none, allowUnplayable := false }

/-- Environment whose HEAD probe answers `Content-Length: 1048576`. -/
def c4Env : Env :=
  { m3u8 := fun _ _ => [], mpd := fun _ _ => [],
    headContentLength := fun _ => some "1048576", allowUnplayable := false }

/-- A progressive format URL with no `stream` query parameter. -/
def c4ProgUrl : String := "https://content.viki.io/360p.mp4"

/-- The descriptor the progressive branch builds for `c4ProgUrl`. -/
def c4ProgDesc : FormatDescriptor :=
  { format_id := some "360p-http", url := c4ProgUrl, ext := none,
    play_path := none, app := none, page_url := none,
    height := some 360, filesize := some 1048576, acodec := none, vcodec := none }

/-- A URL whose query carries base64 of `https://real.example/video.mp4`. -/
def c4StreamUrl : String :=
  "https://api.viki.io/f?stream=aHR0cHM6Ly9yZWFsLmV4YW1wbGUvdmlkZW8ubXA0"

/-- The raw `stream` parameter value of `c4StreamUrl`. -/
def c4B64 : String := "aHR0cHM6Ly9yZWFsLmV4YW1wbGUvdmlkZW8ubXA0"

/-- An HLS collaborator descriptor whose URL is DRM-marked. -/
def c5Drm : FormatDescriptor :=
  { format_id := some "m3u8-http-0", url := "https://cdn.viki.io/hls/_drm/index_1.m3u8",
    ext := some "mp4", play_path := none, app := none, page_url := none,
    height := none, filesize := none, acodec := some "aac", vcodec := some "avc1" }

/-- An HLS collaborator descriptor reporting video-only codecs. -/
def c5VideoOnly : FormatDescriptor :=
  { format_id := some "m3u8-http-1", url := "https://cdn.viki.io/hls/index_2.m3u8",
    ext := some "mp4", play_path := none, app := none, page_url := none,
    height := some 480, filesize := none, acodec := some "none", vcodec := some "avc1" }

/-- A plain HLS collaborator descriptor. -/
def c5Plain : FormatDescriptor :=
  { format_id := some "m3u8-http-2", url := "https://cdn.viki.io/hls/index_3.m3u8",
    ext := some "mp4", play_path := none, app := none, page_url := none,
    height := some 720, filesize := none, acodec := some "aac", vcodec := some "avc1" }

/-- HLS collaborator answering the three descriptors above. -/
def c5Env : Env :=
  { m3u8 := fun _ _ => [c5Drm, c5VideoOnly, c5Plain], mpd := fun _ _ => [],
    headContentLength := fun _ => none, allowUnplayable := false }

/-- 25 item ids with a common prefix. -/
def c9Ids (pfx : String) : List String := (List.range 25).map (fun i => pfx ++ toString i)

/-- A channel listing server: each of the three categories has two pages of
25 items, the second page reporting no next page. -/
def c9Server : String → ChannelPage := fun path =>
  if path = channelPagePath "50c" "episodes" 1 then ⟨c9Ids "e1-", true⟩
  else if path = channelPagePath "50c" "episodes" 2 then ⟨c9Ids "e2-", false⟩
  else if path = channelPagePath "50c" "clips" 1 then ⟨c9Ids "c1-", true⟩
  else if path = channelPagePath "50c" "clips" 2 then ⟨c9Ids "c2-", false⟩
  else if path = channelPagePath "50c" "movies" 1 then ⟨c9Ids "m1-", true⟩
  else if path = channelPagePath "50c" "movies" 2 then ⟨c9Ids "m2-", false⟩
  else ⟨[], false⟩

end Viki

namespace Viki

/-! ## Theorems -/

/-- C1 (counterexample): a first response whose `error` field is present but
equal to the empty string is an "error string" other than `invalid timestamp`,
so the claim demands a raised ApiError; the code's truthiness test
(`if error:`) instead returns the response unchanged after one network call. -/
theorem claim_C1_counterexample :
    (call_api "viki" none "videos/1v.json" (some 5) 99 none c1Server).1 = CallResult.ok c1Resp
    ∧ isApiError (call_api "viki" none "videos/1v.json" (some 5) 99 none c1Server).1 = false
    ∧ ((call_api "viki" none "videos/1v.json" (some 5) 99 none c1Server).2).length = 1 :=
  ⟨rfl, rfl, rfl⟩

/-- C1 (amended): `_call_api` returns the first response unchanged after
exactly one network call when its `error` field is absent or falsy (empty);
when the first response's truthy error equals `invalid timestamp` it re-issues
the request exactly once, passing the response's `current_timestamp` as the
new timestamp (exactly two network calls), and returns the second response
when that one's error is absent or falsy; any other truthy error string in the
first response, or any truthy error string in the retry response, raises an
expected ApiError whose message carries the server's error string verbatim,
with no further network calls. -/
theorem claim_C1 (ieName : String) (token : Option String) (path : String)
    (ts : Option Int) (now : Int) (post : Option String) (server : Nat → ApiResp) :
    (truthyError (server 0) = none →
      call_api ieName token path ts now post server =
        (.ok (server 0), [prepare_call path ts now token post]))
    ∧ (∀ T, truthyError (server 0) = some "invalid timestamp" →
        (server 0).current_timestamp = some T →
        truthyError (server 1) = none →
        call_api ieName token path ts now post server =
          (.ok (server 1),
           [prepare_call path ts now token post, prepare_call path (some T) now token post]))
    ∧ (∀ e, truthyError (server 0) = some e → e ≠ "invalid timestamp" →
        call_api ieName token path ts now post server =
          (.apiError (ieName ++ " returned error: " ++ e) true,
           [prepare_call path ts now token post]))
    ∧ (∀ T e2, truthyError (server 0) = some "invalid timestamp" →
        (server 0).current_timestamp = some T →
        truthyError (server 1) = some e2 →
        call_api ieName token path ts now post server =
          (.apiError (ieName ++ " returned error: " ++ e2) true,
           [prepare_call path ts now token post, prepare_call path (some T) now token post])) := by
  refine ⟨?_, ?_, ?_, ?_⟩
  · intro h; simp [call_api, h]
  · intro T h1 h2 h3; simp [call_api, h1, h2, h3]
  · intro e h1 h2; simp [call_api, h1, h2]
  · intro T e2 h1 h2 h3; simp [call_api, h1, h2, h3]

/-- C1 (witness): the clock-skew scenario at a concrete input — first answer
`invalid timestamp` with `current_timestamp = 42`, second answer error-free:
the call returns the second response and issues exactly the original request
followed by the retry built from timestamp 42. -/
theorem claim_C1_witness :
    truthyError (c1RetryServer 0) = some "invalid timestamp"
    ∧ (c1RetryServer 0).current_timestamp = some 42
    ∧ truthyError (c1RetryServer 1) = none
    ∧ call_api "viki" none "videos/1175236v.json" (some 5) 99 none c1RetryServer =
        (.ok c1RespOk2,
         [prepare_call "videos/1175236v.json" (some 5) 99 none none,
          prepare_call "videos/1175236v.json" (some 42) 99 none none]) :=
  ⟨rfl, rfl, rfl,
   (claim_C1 "viki" none "videos/1175236v.json" (some 5) 99 none c1RetryServer).2.1 42 rfl rfl rfl⟩

/-- C2: `_prepare_call`'s signed URL is the pure deterministic function of
(path, timestamp, token) described by the spec: canonical query
`'/v4/' + path + ('&' if path contains '?' else '?') + 'app=…&t=…&site=www.viki.com'`,
the token (when set) appended before the signature is computed, the signature
the hex HMAC-SHA1 of the query's ASCII bytes keyed by the secret's ASCII
bytes, and the final URL the API host plus query plus `'&sig=…'`. -/
theorem claim_C2 (path : String) (ts : Int) (token : Option String) :
    prepare_call_url path ts token = buildSignedURL path ts token := by
  unfold prepare_call_url prepare_call_query buildSignedURL hmacSha1Hex
  cases token with
  | none =>
    by_cases hp : path.contains '?' <;>
      simp [truthyStr, hp, String.append_assoc, -String.reduceAppend]
  | some t =>
    by_cases ht : t = "" <;> by_cases hp : path.contains '?' <;>
      simp [truthyStr, ht, hp, String.append_assoc, -String.reduceAppend]

/-- C10: the signed URL (hence the HMAC signature it embeds) produced by
`_prepare_call` is independent of the POST payload: any two payloads,
including none, with identical path, timestamp and token yield the same URL;
the payload only selects whether a POST request carrying the serialized body
is built instead of a GET. -/
theorem claim_C10 (path : String) (ts : Option Int) (now : Int) (token : Option String)
    (d1 d2 : Option String) :
    requestUrl (prepare_call path ts now token d1) = requestUrl (prepare_call path ts now token d2)
    ∧ (∀ b, prepare_call path ts now token (some b) =
        .post (prepare_call_url path (effective_timestamp ts now) token) b)
    ∧ prepare_call path ts now token none =
        .get (prepare_call_url path (effective_timestamp ts now) token) := by
  refine ⟨?_, fun b => rfl, rfl⟩
  cases d1 <;> cases d2 <;> rfl

/-- Helper: the recognized reason codes are exactly the keys of `_ERRORS`. -/
lemma lookup_ERRORS (r : String) :
    (ERRORS.lookup r).isSome = true ↔ r = "geo" ∨ r = "upcoming" ∨ r = "paywall" := by
  by_cases h1 : r = "geo"
  · simp [ERRORS, List.lookup, h1]
  · by_cases h2 : r = "upcoming"
    · simp [ERRORS, List.lookup, h2]
    · by_cases h3 : r = "paywall"
      · simp [ERRORS, List.lookup, h3]
      · have e1 : (r == "geo") = false := beq_eq_false_iff_ne.mpr h1
        have e2 : (r == "upcoming") = false := beq_eq_false_iff_ne.mpr h2
        have e3 : (r == "paywall") = false := beq_eq_false_iff_ne.mpr h3
        simp [ERRORS, List.lookup, e1, e2, e3, h1, h2, h3]

/-- C7: `_check_errors` scans the blocking flags in stored order and raises,
for the first recognized reason code with a truthy value, exactly the typed
error with that reason's fixed message (geo-restricted for `geo`,
login-required for `paywall`, a generic expected error for `upcoming`);
truthy unrecognized codes and falsy flags never raise, and with no recognized
truthy flag the check returns normally (`none`). -/
theorem claim_C7 (ieName : String) (blocking : List (String × Bool)) :
    check_errors ieName blocking =
      (blocking.find? recognizedTruthy).map (fun p => restrictionFor ieName p.1) := by
  induction blocking with
  | nil => rfl
  | cons hd tl ih =>
    obtain ⟨reason, status⟩ := hd
    by_cases hrt : recognizedTruthy (reason, status) = true
    · rw [List.find?_cons_of_pos _ hrt]
      have hst : status = true := by
        cases status with
        | false => simp [recognizedTruthy] at hrt
        | true => rfl
      have hrec : (ERRORS.lookup reason).isSome = true := by
        simpa [recognizedTruthy, hst] using hrt
      subst hst
      rcases (lookup_ERRORS reason).mp hrec with h | h | h <;> subst h <;>
        simp [check_errors, restrictionFor, ERRORS, List.lookup]
    · rw [List.find?_cons_of_neg _ hrt, ← ih]
      have hcond : ¬(status = true ∧ (ERRORS.lookup reason).isSome = true) := by
        intro hc
        exact hrt (by simp [recognizedTruthy, hc.1, hc.2])
      simp only [check_errors]
      rw [if_neg hcond]

/-- Helper: the fallback of `dict_selection` — head of the filtered value
list — is the first truthy value, pair-wise. -/
lemma fallback_head_eq (d : List (String × Option String)) :
    ((d.map Prod.snd).filterMap
        (fun v => v.bind (fun s => if s = "" then none else some s))).head?
      = (d.find? (fun p => truthyStr p.2)).bind Prod.snd := by
  induction d with
  | nil => rfl
  | cons hd tl ih =>
    obtain ⟨k, v⟩ := hd
    cases v with
    | none =>
      rw [List.find?_cons_of_neg _ (by simp [truthyStr])]
      simpa using ih
    | some s =>
      by_cases hs : s = ""
      · subst hs
        rw [List.find?_cons_of_neg _ (by simp [truthyStr])]
        simpa using ih
      · rw [List.find?_cons_of_pos _ (by simp [truthyStr, hs])]
        simp [hs]

/-- C8: `dict_selection` returns the preferred key's value whenever the key
is present — even an empty value and even with fallback disabled; otherwise,
with fallback allowed, the first non-empty/non-null value in stored order
(`none` on an empty or all-empty mapping); otherwise `none` — together with
the spec's four concrete locale-selection vectors. -/
theorem claim_C8 :
    (∀ d k allow, dict_selection d k allow = select_spec d k allow)
    ∧ dict_selection [("en", some "Title"), ("fr", some "Titre")] "en" true = some "Title"
    ∧ dict_selection [("fr", some "Titre")] "en" true = some "Titre"
    ∧ dict_selection [("fr", some "Titre")] "en" false = none
    ∧ dict_selection [("en", some "")] "en" true = some "" := by
  refine ⟨?_, rfl, rfl, rfl, rfl⟩
  intro d k allow
  unfold dict_selection select_spec
  cases h : d.lookup k with
  | some v => simp [h]
  | none =>
    simp only [h, Option.isSome_none, Bool.false_eq_true, if_false]
    cases allow
    · simp
    · simpa using fallback_head_eq d

/-- C5: for an `m3u8`/`hls` entry the resolver returns exactly the HLS
collaborator's descriptors, dropping those whose URL carries the DRM marker
unless unplayable formats are allowed, normalizing the audio codec of
descriptors reporting audio `'none'` with video not `'none'` to the unknown
value, and passing every other descriptor through unchanged. -/
theorem claim_C5 :
    (∀ allow fs, processM3U8 allow fs =
        (fs.filter (fun f => allow || !containsDrm f.url)).map normAudio)
    ∧ (∀ f, ¬(f.acodec = some "none" ∧ f.vcodec ≠ some "none") → normAudio f = f)
    ∧ (∀ env pageUrl fid proto u, fid = "m3u8" ∨ fid = "hls" →
        classifyFormat env pageUrl fid proto u =
          processM3U8 env.allowUnplayable (env.m3u8 u ("m3u8-" ++ proto))) := by
  refine ⟨?_, ?_, ?_⟩
  · intro allow fs
    induction fs with
    | nil => rfl
    | cons f rest ih =>
      by_cases hd : containsDrm f.url <;> cases allow <;>
        simp [processM3U8, hd, ih, List.filter_cons]
  · intro f h
    simp [normAudio, h]
  · intro env pageUrl fid proto u h
    rcases h with rfl | rfl <;> simp [classifyFormat]

/-- C5 (witness): a concrete HLS collaborator answer with a DRM-marked
rendition, a video-only rendition and a plain one: the DRM one is dropped,
the video-only one has its audio codec reset, the plain one is unchanged. -/
theorem claim_C5_witness :
    classifyFormat c5Env "https://www.viki.com/videos/1175236v" "m3u8" "http"
      "https://cdn.viki.io/master.m3u8" =
      [{ c5VideoOnly with acodec := none }, c5Plain] := by
  rw [claim_C5.2.2 c5Env "https://www.viki.com/videos/1175236v" "m3u8" "http"
    "https://cdn.viki.io/master.m3u8" (Or.inl rfl)]
  decide

/-- C6: a non-manifest entry whose (decoded) URL begins with `rtmp` produces,
when the URL matches `rtmp://<host>/<app>/<playpath>` with the playpath
beginning `mp4:`, exactly one descriptor carrying the connection URL, the
play path, the app, the page URL, fixed container `flv` and the label
`rtmp-<formatId>`; and no descriptor at all when the pattern does not match. -/
theorem claim_C6 (env : Env) (pageUrl fid proto u : String)
    (h1 : fid ≠ "m3u8") (h2 : fid ≠ "hls") (h3 : fid ≠ "mpd") (h4 : fid ≠ "dash")
    (h5 : strStartsWith u "rtmp" = true) :
    (∀ cu app2 pp, rtmpMatch u = some (cu, app2, pp) →
      classifyFormat env pageUrl fid proto u =
        [{ format_id := some ("rtmp-" ++ fid), url := cu, ext := some "flv",
           play_path := some pp, app := some app2, page_url := some pageUrl,
           height := none, filesize := none, acodec := none, vcodec := none }])
    ∧ (rtmpMatch u = none → classifyFormat env pageUrl fid proto u = []) := by
  constructor
  · intro cu app2 pp hm
    simp [classifyFormat, h1, h2, h3, h4, h5, hm]
  · intro hm
    simp [classifyFormat, h1, h2, h3, h4, h5, hm]

/-- C6 (witness): a matching RTMP URL yields the one expected descriptor; a
non-matching one (no `mp4:` playpath) yields none. -/
theorem claim_C6_witness :
    rtmpMatch "rtmp://stream.viki.io/video/mp4:ep1.mp4" =
      some ("rtmp://stream.viki.io/video", "video", "mp4:ep1.mp4")
    ∧ classifyFormat envNoop "https://www.viki.com/videos/44699v" "240p" "rtmp"
        "rtmp://stream.viki.io/video/mp4:ep1.mp4" =
      [{ format_id := some "rtmp-240p", url := "rtmp://stream.viki.io/video", ext := some "flv",
         play_path := some "mp4:ep1.mp4", app := some "video",
         page_url := some "https://www.viki.com/videos/44699v",
         height := none, filesize := none, acodec := none, vcodec := none }]
    ∧ rtmpMatch "rtmp://stream.viki.io/file.flv" = none
    ∧ classifyFormat envNoop "https://www.viki.com/videos/44699v" "240p" "rtmp"
        "rtmp://stream.viki.io/file.flv" = [] := by
  refine ⟨by decide, ?_, by decide, ?_⟩
  · exact (claim_C6 envNoop "https://www.viki.com/videos/44699v" "240p" "rtmp"
      "rtmp://stream.viki.io/video/mp4:ep1.mp4" (by decide) (by decide) (by decide) (by decide)
      (by decide)).1 "rtmp://stream.viki.io/video" "video" "mp4:ep1.mp4" (by decide)
  · exact (claim_C6 envNoop "https://www.viki.com/videos/44699v" "240p" "rtmp"
      "rtmp://stream.viki.io/file.flv" (by decide) (by decide) (by decide) (by decide)
      (by decide)).2 (by decide)

/-- C4: `add_format` produces nothing (and no error) for protocol `rtmps`
whatever the entry; skips an entry without URL; uses, when the URL's query
carries a `stream` parameter, the base64-decoding of that parameter for all
further classification; and on the spec's concrete progressive vector
(`360p`/`http`, HEAD answering Content-Length 1048576) produces exactly one
descriptor with height 360, filesize 1048576 and id `360p-http`; the height
comes from the `<digits>p` pattern and is absent when it does not match. -/
theorem claim_C4 :
    (∀ env pageUrl fid fd, add_format env pageUrl fid fd "rtmps" = .ok [])
    ∧ (∀ env pageUrl fid proto, add_format env pageUrl fid ⟨none⟩ proto = .ok [])
    ∧ (∀ url s u, streamParam url = some s → s ≠ "" → b64decodeToUtf8 s = some u →
        effectiveUrl url = .ok u)
    ∧ add_format c4Env "https://www.viki.com/videos/1175236v" "360p" ⟨some c4ProgUrl⟩ "http" =
        .ok [c4ProgDesc]
    ∧ parseHeight "360p" = some 360 ∧ parseHeight "hd" = none := by
  refine ⟨?_, ?_, ?_, by rfl, by decide, by decide⟩
  · intro env pageUrl fid fd
    rfl
  · intro env pageUrl fid proto
    by_cases hp : proto = "rtmps" <;> simp [add_format, hp]
  · intro url s u hs hne hb
    simp [effectiveUrl, hs, hne, hb]

/-- C4 (witness): the universally quantified parts of C4 at concrete inputs,
including a URL whose `stream` query parameter decodes to
`https://real.example/video.mp4`. -/
theorem claim_C4_witness :
    add_format c4Env "https://page" "hd" ⟨some "rtmp://bad"⟩ "rtmps" = .ok []
    ∧ add_format c4Env "https://page" "720p" ⟨none⟩ "http" = .ok []
    ∧ streamParam c4StreamUrl = some c4B64
    ∧ b64decodeToUtf8 c4B64 = some "https://real.example/video.mp4"
    ∧ effectiveUrl c4StreamUrl = .ok "https://real.example/video.mp4" :=
  ⟨claim_C4.1 c4Env "https://page" "hd" ⟨some "rtmp://bad"⟩,
   claim_C4.2.1 c4Env "https://page" "720p" "http",
   by decide, by decide,
   claim_C4.2.2.1 c4StreamUrl c4B64 "https://real.example/video.mp4"
     (by decide) (by decide) (by decide)⟩

/-- C3: the dedicated streams endpoint is consulted exactly when resolving
the embedded streams map (with implicit protocol `http`) produced zero
descriptors; a non-empty embedded resolution is returned as-is with no
endpoint call; and an `external` key in the endpoint response yields a
`url_transparent` delegation to the external URL with no format resolution of
that response (the result is independent of its stream entries). -/
theorem claim_C3 (env : Env) (pageUrl : String) (embedded : List (String × FormatEntry))
    (endpoint : StreamsResp) :
    ((resolveStreams env pageUrl embedded endpoint).2 = true ↔
      collectFormats env pageUrl (embedded.map (fun p => (p.1, "http", p.2))) = .ok [])
    ∧ (∀ fs, collectFormats env pageUrl (embedded.map (fun p => (p.1, "http", p.2))) = .ok fs →
        fs ≠ [] → resolveStreams env pageUrl embedded endpoint = (.formats fs, false))
    ∧ (∀ u es1 es2,
        collectFormats env pageUrl (embedded.map (fun p => (p.1, "http", p.2))) = .ok [] →
        resolveStreams env pageUrl embedded ⟨some u, es1⟩ = (.urlTransparent u, true)
        ∧ resolveStreams env pageUrl embedded ⟨some u, es1⟩ =
            resolveStreams env pageUrl embedded ⟨some u, es2⟩) := by
  refine ⟨?_, ?_, ?_⟩
  · unfold resolveStreams
    cases h : collectFormats env pageUrl (embedded.map fun p => (p.1, "http", p.2)) with
    | error e => simp [h]
    | ok fs =>
      cases fs with
      | nil =>
        simp only [List.isEmpty_nil, if_true]
        cases hx : endpoint.external with
        | some u => simp
        | none =>
          cases h2 : collectFormats env pageUrl (flattenStreams endpoint.streams) <;> simp
      | cons f rest => simp
  · intro fs h hne
    unfold resolveStreams
    rw [h]
    simp [List.isEmpty_iff, hne]
  · intro u es1 es2 h
    unfold resolveStreams
    rw [h]
    simp

/-- C3 (witness): with an empty embedded map (zero descriptors) and an
endpoint response carrying an `external` URL, extraction delegates to that
URL and the endpoint was consulted. -/
theorem claim_C3_witness :
    collectFormats envNoop "https://www.viki.com/videos/50562v"
        (([] : List (String × FormatEntry)).map (fun p => (p.1, "http", p.2))) = .ok []
    ∧ resolveStreams envNoop "https://www.viki.com/videos/50562v" []
        ⟨some "http://www.youtube.com/watch?v=qx3Ykl0pBjM", []⟩ =
      (.urlTransparent "http://www.youtube.com/watch?v=qx3Ykl0pBjM", true) :=
  ⟨rfl,
   ((claim_C3 envNoop "https://www.viki.com/videos/50562v" [] ⟨none, []⟩).2.2
     "http://www.youtube.com/watch?v=qx3Ykl0pBjM" [] [] rfl).1⟩

/-- Helper: the per-category paging loop, run with enough fuel, collects the
pages from `start` up to the first page with no next page. -/
lemma crawlCategory_stops (server : String → ChannelPage) (cid vt : String) (fuel : Nat) :
    ∀ start n : Nat, 1 ≤ start → start ≤ n →
      (∀ k, start ≤ k → k < n → (server (channelPagePath cid vt k)).hasNext = true) →
      (server (channelPagePath cid vt n)).hasNext = false →
      n < start + fuel →
      crawlCategory server cid vt start fuel =
        (List.range' start (n + 1 - start)).flatMap
          (fun k => (server (channelPagePath cid vt k)).response.map videoUrlResult) := by
  induction fuel with
  | zero =>
    intro start n _ h2 _ _ h5
    exact ((by omega : False)).elim
  | succ f ih =>
    intro start n h1 h2 h3 h4 h5
    by_cases hsn : start = n
    · subst hsn
      have hone : start + 1 - start = 1 := by omega
      simp [crawlCategory, h4, hone, List.range'_one]
    · have hlt : start < n := lt_of_le_of_ne h2 hsn
      have hnext := h3 start le_rfl hlt
      have hrw := ih (start + 1) n (by omega) (by omega)
        (fun k hk1 hk2 => h3 k (by omega) hk2) h4 (by omega)
      have hn1 : n + 1 - start = (n - start) + 1 := by omega
      have hn2 : n + 1 - (start + 1) = n - start := by omega
      rw [hn2] at hrw
      simp only [crawlCategory, hnext, if_true, hrw, hn1, List.range'_succ,
        List.flatMap_cons]

/-- C9: assuming each category's paging reaches a page with no next page (and
the fuel covers it), the channel listing is the concatenation of all episode
pages, then all clip pages, then all movie pages, each category paged from
page 1 (page size 25 is part of the listing path) and stopping at the first
page whose pagination block reports no next page, in page order with no
deduplication. -/
theorem claim_C9 (server : String → ChannelPage) (cid : String) (fuel nE nC nM : Nat)
    (hE : stopsAt server cid "episodes" nE) (hC : stopsAt server cid "clips" nC)
    (hM : stopsAt server cid "movies" nM)
    (hfE : nE ≤ fuel) (hfC : nC ≤ fuel) (hfM : nM ≤ fuel) :
    channel_entries server cid fuel =
      categoryItems server cid "episodes" nE ++ categoryItems server cid "clips" nC
        ++ categoryItems server cid "movies" nM := by
  obtain ⟨hE1, hE2, hE3⟩ := hE
  obtain ⟨hC1, hC2, hC3⟩ := hC
  obtain ⟨hM1, hM2, hM3⟩ := hM
  unfold channel_entries categoryItems
  simp only [List.flatMap_cons, List.flatMap_nil, List.append_nil]
  rw [crawlCategory_stops server cid "episodes" fuel 1 nE le_rfl hE1
      (fun k hk1 hk2 => hE2 k hk1 hk2) hE3 (by omega),
    crawlCategory_stops server cid "clips" fuel 1 nC le_rfl hC1
      (fun k hk1 hk2 => hC2 k hk1 hk2) hC3 (by omega),
    crawlCategory_stops server cid "movies" fuel 1 nM le_rfl hM1
      (fun k hk1 hk2 => hM2 k hk1 hk2) hM3 (by omega)]
  simp [List.append_assoc]

set_option maxRecDepth 8000 in
/-- C9 (witness): three categories of two pages of 25 items each (second page
reporting no next page) yield the concatenation in category-then-page order —
150 identifiers in total. -/
theorem claim_C9_witness :
    stopsAt c9Server "50c" "episodes" 2 ∧ stopsAt c9Server "50c" "clips" 2
    ∧ stopsAt c9Server "50c" "movies" 2
    ∧ channel_entries c9Server "50c" 2 =
        categoryItems c9Server "50c" "episodes" 2 ++ categoryItems c9Server "50c" "clips" 2
          ++ categoryItems c9Server "50c" "movies" 2
    ∧ (channel_entries c9Server "50c" 2).length = 150 := by
  have hE : stopsAt c9Server "50c" "episodes" 2 := by
    refine ⟨by omega, ?_, by decide⟩
    intro k hk1 hk2
    have : k = 1 := by omega
    subst this
    decide
  have hC : stopsAt c9Server "50c" "clips" 2 := by
    refine ⟨by omega, ?_, by decide⟩
    intro k hk1 hk2
    have : k = 1 := by omega
    subst this
    decide
  have hM : stopsAt c9Server "50c" "movies" 2 := by
    refine ⟨by omega, ?_, by decide⟩
    intro k hk1 hk2
    have : k = 1 := by omega
    subst this
    decide
  refine ⟨hE, hC, hM, claim_C9 c9Server "50c" 2 2 2 2 hE hC hM le_rfl le_rfl le_rfl, ?_⟩
  decide

end Viki
